import Mathlib

/-!
Verification of the DirBuster demo HTTP server (src/server.py).

The server is a thin routing layer over Python's `SimpleHTTPRequestHandler`:
`DemoHandler.do_GET` intercepts the exact paths `/private` and `/private/`
(canned 403), then the exact path `/health` (canned 200 "ok"), and otherwise
delegates to the library's static-file serving rooted at `BASE_DIR`.

We embed the handler as a pure function from the request path to the list of
output events it emits on the response stream (`send_response`, `send_header`,
`end_headers`, `wfile.write`), which mirrors the source line by line.  The
standard-library static file serving (`super().do_GET()`) is not part of the
repository; it is modelled from the spec's description of static file
resolution (resolve relative to the root, reject traversal outside the root,
serve bytes or fall back to not-found).
-/

namespace DirbusterDemo

/-- A static file on disk: its inferred content type and its bytes
(bytes represented as a string). -/
structure StaticFile where
  contentType : String
  bytes : String
deriving DecidableEq, Repr

/-- The (read-only) disk: a partial map from absolute path segments to files. -/
def Disk : Type := List String → Option StaticFile

/-- One output action of a request handler on the response stream, mirroring
the Python handler API calls used in `server.py`. -/
inductive Event where
  | sendResponse (status : Nat)
  | sendHeader (name value : String)
  | endHeaders
  | write (bytes : String)
deriving DecidableEq, Repr

/-- The fixed 403 body written at src/server.py line 40. -/
def forbiddenBody : String := "403 Forbidden: Directory listing is disabled."

/-- Events emitted by the `/private` branch of `do_GET` (src lines 37-41). -/
def forbiddenEvents : List Event :=
  [.sendResponse 403,
   .sendHeader "Content-Type" "text/plain; charset=utf-8",
   .endHeaders,
   .write forbiddenBody]

/-- Events emitted by the `/health` branch of `do_GET` (src lines 45-49). -/
def healthEvents : List Event :=
  [.sendResponse 200,
   .sendHeader "Content-Type" "text/plain; charset=utf-8",
   .endHeaders,
   .write "ok"]

/-- Embedding of `re.fullmatch(r"/private/?", path)` (src line 36): the whole
string must be `/private` optionally followed by one `/`. -/
def matches_private (path : String) : Bool :=
  path == "/private" || path == "/private/"

/-- Modelled from the spec: the request target up to the query string; the
library's static resolution discards the query (and fragment) part of the
request target before mapping it to a file. -/
def stripQuery (path : String) : String :=
  String.mk ((path.data.takeWhile (fun c => c ≠ '?')).takeWhile (fun c => c ≠ '#'))

/-- Split a character list at `/` into nonempty path segments (empty
segments, as produced by repeated or leading slashes, are dropped). -/
def pathSegsAux (cur : List Char) : List Char → List String
  | [] => if cur.isEmpty then [] else [String.mk cur.reverse]
  | c :: rest =>
      if c = '/' then
        if cur.isEmpty then pathSegsAux [] rest
        else String.mk cur.reverse :: pathSegsAux [] rest
      else
        pathSegsAux (c :: cur) rest

/-- The nonempty `/`-separated segments of a path string. -/
def pathSegs (path : String) : List String :=
  pathSegsAux [] path.data

/-- Modelled from the spec: normalize path segments, resolving `.` and `..`;
a `..` that would climb above the root makes resolution fail (traversal
outside the root is rejected). -/
def normalizeSegs (acc : List String) : List String → Option (List String)
  | [] => some acc.reverse
  | s :: rest =>
      if s = "." then normalizeSegs acc rest
      else if s = ".." then
        match acc with
        | [] => none
        | _ :: acc' => normalizeSegs acc' rest
      else normalizeSegs (s :: acc) rest

/-- Modelled from the spec: static file resolution maps a request path to
path segments relative to the root, or fails on traversal outside the root. -/
def resolveUnderRoot (path : String) : Option (List String) :=
  normalizeSegs [] (pathSegs (stripQuery path))

/-- Modelled from the spec: the library's standard not-found response. -/
def notFoundEvents : List Event :=
  [.sendResponse 404,
   .sendHeader "Content-Type" "text/html;charset=utf-8",
   .endHeaders,
   .write "404 Not Found"]

/-- Events serving a static file: 200 with the file's bytes and its content
type. -/
def fileEvents (f : StaticFile) : List Event :=
  [.sendResponse 200,
   .sendHeader "Content-Type" f.contentType,
   .endHeaders,
   .write f.bytes]

/-- Modelled from the spec: `super().do_GET()` of `SimpleHTTPRequestHandler`
(src line 51) — static file resolution rooted at `root`: resolve the path
relative to the root and serve the file's bytes if present, else the standard
not-found response; traversal outside the root is rejected as not-found. -/
def super_do_GET (root : List String) (disk : Disk) (path : String) : List Event :=
  match resolveUnderRoot path with
  | none => notFoundEvents
  | some segs =>
      match disk (root ++ segs) with
      | some f => fileEvents f
      | none => notFoundEvents

/-- Embedding of `DemoHandler.do_GET` (src lines 34-51): the 403 rule for
`/private` / `/private/`, then the `/health` rule, then delegation to the
library's static serving. -/
def do_GET (root : List String) (disk : Disk) (path : String) : List Event :=
  if matches_private path then forbiddenEvents
  else if path == "/health" then healthEvents
  else super_do_GET root disk path

/-- The status sent by a response: the first `sendResponse` event. -/
def statusOf (evs : List Event) : Option Nat :=
  evs.findSome? fun e =>
    match e with
    | .sendResponse s => some s
    | _ => none

/-- The Content-Type header sent by a response, if any. -/
def contentTypeOf (evs : List Event) : Option String :=
  evs.findSome? fun e =>
    match e with
    | .sendHeader n v => if n == "Content-Type" then some v else none
    | _ => none

/-- The body of a response: the concatenation of all written bytes. -/
def bodyOf (evs : List Event) : String :=
  evs.foldl (fun acc e =>
    match e with
    | .write b => acc ++ b
    | _ => acc) ""

/-- The number of `send_response` calls a handler run performs. -/
def responseCount (evs : List Event) : Nat :=
  (evs.filter fun e =>
    match e with
    | .sendResponse _ => true
    | _ => false).length

/-- The spec's view of the router (spec section 3): an ordered list of route
rules, each a path-matcher paired with a response-producer, evaluated in
fixed priority order with first match winning. -/
def route_rules (root : List String) (disk : Disk) :
    List ((String → Bool) × (String → List Event)) :=
  [(matches_private, fun _ => forbiddenEvents),
   (fun p => p == "/health", fun _ => healthEvents),
   (fun _ => true, fun p => super_do_GET root disk p)]

/-- First-match dispatch over a rule list: the producer of the first rule
whose matcher accepts the path runs; later rules are never consulted. -/
def first_match : List ((String → Bool) × (String → List Event)) → String → List Event
  | [], _ => []
  | (m, produce) :: rest, p => if m p then produce p else first_match rest p

/-- Modelled from the spec: the base handler's behavior for non-GET methods.
`DemoHandler` overrides only `do_GET`, so a HEAD request is served by the
library's static HEAD (status and headers of static resolution, no body) and
any other method gets the library's 501 response; the canned `/private` and
`/health` bodies are never written here. -/
def super_handle (root : List String) (disk : Disk) (method path : String) :
    List Event :=
  if method == "HEAD" then
    match resolveUnderRoot path with
    | none =>
        [.sendResponse 404, .sendHeader "Content-Type" "text/html;charset=utf-8",
         .endHeaders]
    | some segs =>
        match disk (root ++ segs) with
        | some f =>
            [.sendResponse 200, .sendHeader "Content-Type" f.contentType,
             .endHeaders]
        | none =>
            [.sendResponse 404, .sendHeader "Content-Type" "text/html;charset=utf-8",
             .endHeaders]
  else
    [.sendResponse 501, .sendHeader "Content-Type" "text/html;charset=utf-8",
     .endHeaders, .write "501 Unsupported method"]

/-- Per-request dispatch by method: `DemoHandler` defines `do_GET` only
(src lines 34-51), so the canned routes exist only for GET; every other
method is handled by the inherited library behavior. -/
def handle_request (root : List String) (disk : Disk) (method path : String) :
    List Event :=
  if method == "GET" then do_GET root disk path
  else super_handle root disk method path

/-- The state a handler could observe across requests: the serving root and
the (read-only) disk.  `do_GET` assigns no instance, class or global
variable, so handling a request returns the state unchanged. -/
structure ServerState where
  root : List String
  disk : Disk

/-- One request handled against the server state: the emitted events and the
state as it is after the request (src lines 34-51 perform no assignment to
any field of the handler or any global). -/
def handle_step (st : ServerState) (method path : String) :
    List Event × ServerState :=
  (handle_request st.root st.disk method path, st)

/-- A sequence of requests handled one after the other, each seeing the
state left behind by the previous one. -/
def handle_session (st : ServerState) : List (String × String) → List (List Event)
  | [] => []
  | (method, path) :: rest =>
      let out := handle_step st method path
      out.1 :: handle_session out.2 rest

/-- Embedding of `BASE_DIR = os.path.join(os.path.dirname(__file__), "site")`
(src line 25), with the script's directory as path segments. -/
def BASE_DIR (script_dir : List String) : List String :=
  script_dir ++ ["site"]

/-- The configuration `run` builds (src lines 69-70): the bind address from
the CLI flags and the handler's serving directory, which `DemoHandler`'s
constructor fixes to `BASE_DIR` (src lines 31-32). -/
structure ServerConfig where
  bindHost : String
  bindPort : Int
  handlerRoot : List String
deriving DecidableEq

/-- Embedding of `run(host, port)` constructing
`ThreadingHTTPServer((host, port), DemoHandler)` (src line 70): host and port
come from the CLI, the handler root is always `BASE_DIR`. -/
def make_server (script_dir : List String) (host : String) (port : Int) :
    ServerConfig :=
  { bindHost := host, bindPort := port, handlerRoot := BASE_DIR script_dir }

/-- The response a configured server gives to one request: static files are
resolved under the configured handler root. -/
def server_response (cfg : ServerConfig) (disk : Disk) (method path : String) :
    List Event :=
  handle_request cfg.handlerRoot disk method path

/-- Embedding of the startup banner of `run` (src lines 71-79): the LAN line
uses the detected address when `get_lan_ip()` returned one, and falls back to
the configured host when it raised (the `except Exception` branch, src
lines 73-74). -/
def run_banner (host : String) (port : Int) (lanResult : Except String String) :
    List String :=
  let lan_ip :=
    match lanResult with
    | .ok ip => ip
    | .error _ => host
  ["DirBuster Demo Server running on:",
   "  http://127.0.0.1:" ++ toString port,
   "  http://" ++ lan_ip ++ ":" ++ toString port ++ "  (LAN)",
   "Press Ctrl+C to stop."]

end DirbusterDemo

namespace DirbusterDemo

theorem str_empty_append (s : String) : "" ++ s = s := by
  cases s
  rfl

/-- C1: a GET of exactly `/private` or `/private/` gets the canned response:
status 403, content type `text/plain; charset=utf-8`, body the fixed
forbidden message, with no static file resolution. -/
theorem c1_private_exact_forbidden (root : List String) (disk : Disk) (path : String)
    (h : path = "/private" ∨ path = "/private/") :
    do_GET root disk path = forbiddenEvents ∧
    statusOf (do_GET root disk path) = some 403 ∧
    contentTypeOf (do_GET root disk path) = some "text/plain; charset=utf-8" ∧
    bodyOf (do_GET root disk path) = forbiddenBody := by
  rcases h with h | h <;> subst h <;> exact ⟨rfl, rfl, rfl, rfl⟩

theorem c1_private_exact_forbidden_witness :
    do_GET [] (fun _ => none) "/private" = forbiddenEvents ∧
    statusOf (do_GET [] (fun _ => none) "/private") = some 403 ∧
    contentTypeOf (do_GET [] (fun _ => none) "/private") = some "text/plain; charset=utf-8" ∧
    bodyOf (do_GET [] (fun _ => none) "/private") = forbiddenBody :=
  c1_private_exact_forbidden [] (fun _ => none) "/private" (Or.inl rfl)

theorem matches_private_eq_true {path : String} (h : matches_private path = true) :
    path = "/private" ∨ path = "/private/" := by
  simpa [matches_private] using h

/-- C2: a GET of `/private/<s>` with nonempty `<s>` is not matched by the 403
rule: it delegates to static resolution, and when the resolved file exists
under the root it is served as 200 with its bytes. -/
theorem c2_private_subpath_delegates (root : List String) (disk : Disk) (s : String)
    (h : s ≠ "") :
    do_GET root disk ("/private/" ++ s) = super_do_GET root disk ("/private/" ++ s) ∧
    ∀ segs f, resolveUnderRoot ("/private/" ++ s) = some segs →
      disk (root ++ segs) = some f →
      do_GET root disk ("/private/" ++ s) = fileEvents f := by
  have hslen : 0 < s.length := by
    rcases Nat.eq_zero_or_pos s.length with h0 | h0
    · exact absurd (String.ext (List.length_eq_zero.mp h0)) h
    · exact h0
  have h9 : ("/private/" : String).length = 9 := rfl
  have h8 : ("/private" : String).length = 8 := rfl
  have hlen : ("/private/" ++ s).length = 9 + s.length := by
    rw [String.length_append, h9]
  have hm : matches_private ("/private/" ++ s) = false := by
    cases hp : matches_private ("/private/" ++ s)
    · rfl
    · exfalso
      rcases matches_private_eq_true hp with h1 | h1
      · have hc := congrArg String.length h1
        rw [hlen, h8] at hc
        omega
      · have hc := congrArg String.length h1
        rw [hlen, h9] at hc
        omega
  have hh : (("/private/" ++ s) == "/health") = false := by
    cases hp : (("/private/" ++ s) == "/health")
    · rfl
    · exfalso
      have h1 : ("/private/" ++ s) = "/health" := eq_of_beq hp
      have hc := congrArg String.length h1
      rw [hlen] at hc
      have h7 : ("/health" : String).length = 7 := rfl
      rw [h7] at hc
      omega
  have hdel : do_GET root disk ("/private/" ++ s) =
      super_do_GET root disk ("/private/" ++ s) := by
    rw [do_GET, if_neg, if_neg]
    · simp [hh]
    · simp [hm]
  refine ⟨hdel, ?_⟩
  intro segs f hsegs hf
  rw [hdel, super_do_GET, hsegs]
  simp [hf]

theorem c2_private_subpath_delegates_witness :
    do_GET []
        (fun l => if l = ["private", "secrets.txt"] then
          some ⟨"text/plain", "TOPSECRET"⟩ else none)
        "/private/secrets.txt" =
      fileEvents ⟨"text/plain", "TOPSECRET"⟩ :=
  (c2_private_subpath_delegates []
      (fun l => if l = ["private", "secrets.txt"] then
        some ⟨"text/plain", "TOPSECRET"⟩ else none)
      "secrets.txt" (by decide)).2
    ["private", "secrets.txt"] ⟨"text/plain", "TOPSECRET"⟩ (by decide) (by decide)

/-- C3: no response ever carries the contents of a file outside the root:
every 200 body is either the health body or the bytes of a file resolved
under the root, and the traversal request `/../../etc/passwd` gets the
not-found response. -/
theorem c3_traversal_rejected (root : List String) (disk : Disk) (path : String) :
    (statusOf (do_GET root disk path) = some 200 →
      bodyOf (do_GET root disk path) = "ok" ∨
      ∃ segs f, resolveUnderRoot path = some segs ∧ disk (root ++ segs) = some f ∧
        bodyOf (do_GET root disk path) = f.bytes) ∧
    do_GET root disk "/../../etc/passwd" = notFoundEvents := by
  constructor
  · rw [do_GET]
    split
    · intro h200
      exact absurd h200 (by decide)
    · split
      · intro _
        left
        decide
      · rw [super_do_GET]
        split
        · intro h200
          exact absurd h200 (by decide)
        · next segs heq =>
          split
          · next f hf =>
            intro _
            right
            refine ⟨segs, f, heq, hf, ?_⟩
            simp [bodyOf, fileEvents, List.foldl_cons, List.foldl_nil, str_empty_append]
          · intro h200
            exact absurd h200 (by decide)
  · rfl

theorem c3_traversal_rejected_witness :
    bodyOf (do_GET [] (fun _ => none) "/health") = "ok" ∨
    ∃ segs f, resolveUnderRoot "/health" = some segs ∧
      (fun _ => none : Disk) ([] ++ segs) = some f ∧
      bodyOf (do_GET [] (fun _ => none) "/health") = f.bytes :=
  (c3_traversal_rejected [] (fun _ => none) "/health").1 (by decide)

/-- C4: a GET of exactly `/health` gets the canned response: status 200,
content type `text/plain; charset=utf-8`, body `ok`, with no static file
resolution. -/
theorem c4_health_ok (root : List String) (disk : Disk) :
    do_GET root disk "/health" = healthEvents ∧
    statusOf (do_GET root disk "/health") = some 200 ∧
    contentTypeOf (do_GET root disk "/health") = some "text/plain; charset=utf-8" ∧
    bodyOf (do_GET root disk "/health") = "ok" :=
  ⟨rfl, rfl, rfl, rfl⟩

/-- C5: the handler is first-match dispatch over the ordered rule list
(403 rule, then health rule, then the static fallback), and every request
performs exactly one `send_response`. -/
theorem c5_first_match_single_response (root : List String) (disk : Disk) (path : String) :
    do_GET root disk path = first_match (route_rules root disk) path ∧
    responseCount (do_GET root disk path) = 1 := by
  refine ⟨rfl, ?_⟩
  rw [do_GET]
  split
  · rfl
  · split
    · rfl
    · rw [super_do_GET]
      split
      · rfl
      · split <;> rfl

/-- C6: request handling is a pure function of the path and read-only state:
a step returns the state unchanged, and two identical requests in a row
produce the identical response events (hence identical status and body). -/
theorem c6_stateless_idempotent (st : ServerState) (method path : String) :
    (handle_step st method path).2 = st ∧
    handle_session st [(method, path), (method, path)] =
      [handle_request st.root st.disk method path,
       handle_request st.root st.disk method path] :=
  ⟨rfl, rfl⟩

/-- C7: when LAN address detection fails, the banner is exactly the banner
printed with the configured host in the LAN line; startup still produces the
full four-line banner, so the failure is never fatal. -/
theorem c7_lan_ip_fallback (host : String) (port : Int) (err : String) :
    run_banner host port (.error err) = run_banner host port (.ok host) ∧
    (run_banner host port (.error err)).get? 2 =
      some ("  http://" ++ host ++ ":" ++ toString port ++ "  (LAN)") ∧
    (run_banner host port (.error err)).length = 4 :=
  ⟨rfl, rfl, rfl⟩

/-- C8: the canned rules match on the raw request target, query string
included: a `/private`, `/private/` or `/health` path carrying a query
string matches neither canned rule and falls through to static serving. -/
theorem c8_query_string_not_matched (root : List String) (disk : Disk) (path : String)
    (h : stripQuery path = "/private" ∨ stripQuery path = "/private/" ∨
      stripQuery path = "/health")
    (hq : path ≠ stripQuery path) :
    do_GET root disk path = super_do_GET root disk path := by
  have hm : matches_private path = false := by
    cases hp : matches_private path
    · rfl
    · exfalso
      rcases matches_private_eq_true hp with h1 | h1 <;> subst h1 <;> exact hq (by decide)
  have hh : (path == "/health") = false := by
    cases hp : (path == "/health")
    · rfl
    · exfalso
      have h1 : path = "/health" := eq_of_beq hp
      subst h1
      exact hq (by decide)
  rw [do_GET, if_neg, if_neg]
  · simp [hh]
  · simp [hm]

theorem c8_query_string_not_matched_witness :
    do_GET [] (fun _ => none) "/private?x=1" = super_do_GET [] (fun _ => none) "/private?x=1" :=
  c8_query_string_not_matched [] (fun _ => none) "/private?x=1"
    (Or.inl (by decide)) (by decide)

theorem super_handle_body (root : List String) (disk : Disk) (method path : String) :
    bodyOf (super_handle root disk method path) = "" ∨
    bodyOf (super_handle root disk method path) = "501 Unsupported method" := by
  rw [super_handle]
  split
  · split
    · left; rfl
    · split
      · left; rfl
      · left; rfl
  · right
    decide

/-- C9: the canned `/private` and `/health` responses exist only in the GET
handler: every non-GET request is delegated to the inherited library
behavior and never gets either canned body. -/
theorem c9_non_get_delegates (root : List String) (disk : Disk) (method path : String)
    (h : method ≠ "GET") :
    handle_request root disk method path = super_handle root disk method path ∧
    bodyOf (handle_request root disk method path) ≠ forbiddenBody ∧
    bodyOf (handle_request root disk method path) ≠ "ok" := by
  have hbeq : (method == "GET") = false := by
    cases hp : (method == "GET")
    · rfl
    · exact absurd (eq_of_beq hp) h
  have hmain : handle_request root disk method path = super_handle root disk method path := by
    rw [handle_request, if_neg]
    simp [hbeq]
  refine ⟨hmain, ?_, ?_⟩ <;> rw [hmain] <;>
    rcases super_handle_body root disk method path with hb | hb <;> rw [hb] <;> decide

theorem c9_non_get_delegates_witness :
    handle_request [] (fun _ => none) "HEAD" "/private" =
      super_handle [] (fun _ => none) "HEAD" "/private" ∧
    bodyOf (handle_request [] (fun _ => none) "HEAD" "/private") ≠ forbiddenBody ∧
    bodyOf (handle_request [] (fun _ => none) "HEAD" "/private") ≠ "ok" :=
  c9_non_get_delegates [] (fun _ => none) "HEAD" "/private" (by decide)

/-- C10: the static root is fixed at `BASE_DIR` (the `site` directory next to
the script) for every choice of the CLI host and port flags: the flags set
only the bind address, and the responses are unchanged across them. -/
theorem c10_base_dir_fixed (sd : List String) (h1 h2 : String) (p1 p2 : Int)
    (disk : Disk) (method path : String) :
    (make_server sd h1 p1).handlerRoot = BASE_DIR sd ∧
    (make_server sd h1 p1).bindHost = h1 ∧
    (make_server sd h1 p1).bindPort = p1 ∧
    server_response (make_server sd h1 p1) disk method path =
      server_response (make_server sd h2 p2) disk method path :=
  ⟨rfl, rfl, rfl, rfl⟩

end DirbusterDemo
